import Mathlib

/-!
Shallow embedding of the finplanner projection engine (src/models and
src/services) in Lean 4, over exact rational arithmetic (Python floats are
modelled as ℚ).  Optional dictionary keys are modelled as `Option` fields:
`none` stands for an absent key (or a stored `None`), so `Option.getD`
mirrors Python's `dict.get(key, default)`.  Python exceptions are modelled
by `Option`-valued results (`none` = the call raised).  Ages and calendar
years are integers, as in every observed scenario (`range()` requires
integer bounds).
-/

/-! ## Amortization calculator (src/models/real_estate_v2.py) -/

/-- Embedding of `calculate_monthly_mortgage_payment(principal, annual_rate,
years)`: standard fixed-rate annuity formula, straight-line when the rate
is zero. -/
def calculate_monthly_mortgage_payment (principal annual_rate : ℚ) (years : Int) : ℚ :=
  if annual_rate = 0 then
    principal / (years * 12)
  else
    let monthly_rate := annual_rate / 12
    let num_payments : Int := years * 12
    principal * (monthly_rate * (1 + monthly_rate) ^ num_payments) /
      ((1 + monthly_rate) ^ num_payments - 1)

/-- Embedding of `calculate_mortgage_balance(original_principal, annual_rate,
term_years, payments_made)`: remaining balance after `payments_made`
monthly payments. -/
def calculate_mortgage_balance (original_principal annual_rate : ℚ)
    (term_years payments_made : Int) : ℚ :=
  if annual_rate = 0 then
    let total_payments : ℚ := (term_years : ℚ) * 12
    max 0 (original_principal - original_principal * (payments_made : ℚ) / total_payments)
  else
    let monthly_rate := annual_rate / 12
    let total_payments : Int := term_years * 12
    if payments_made ≥ total_payments then 0
    else
      max 0 (original_principal *
        ((1 + monthly_rate) ^ total_payments - (1 + monthly_rate) ^ payments_made) /
        ((1 + monthly_rate) ^ total_payments - 1))

/-! ## Property classes (src/models/property_classes.py) -/

/-- Raw property dictionary as handed to `create_property`; `Option` fields
model keys that may be absent (`dict.get` defaults are applied by the
constructor, as in `Property.__init__`). -/
structure PropertyData where
  property_name : Option String
  address : Option String
  mortgage_rate : Option ℚ
  mortgage_term_years : Option Int
  appreciation_rate : Option ℚ
  sale_year : Option Int
  purchase_year : Option Int
  purchase_price : Option ℚ
  down_payment_percent : Option ℚ
  is_existing_property : Bool
  current_value : Option ℚ
  current_mortgage_balance : Option ℚ
deriving DecidableEq

/-- Tag distinguishing `ExistingProperty` from `FutureProperty` (the two
subclasses of `Property`). -/
inductive PropertyKind where
  | existing
  | future
deriving DecidableEq

/-- A constructed property object: the fields set by `Property.__init__`
(with defaults applied) plus the `ExistingProperty.__init__` fields, which
are only read on the `existing` branch. -/
structure PropertyObj where
  kind : PropertyKind
  property_name : String
  mortgage_rate : ℚ
  mortgage_term_years : Int
  appreciation_rate : ℚ
  sale_year : Option Int
  purchase_year : Int
  purchase_price : ℚ
  down_payment_percent : ℚ
  current_value : ℚ
  current_mortgage_balance : ℚ
deriving DecidableEq

/-- Embedding of `create_property` together with `Property.__init__` /
`ExistingProperty.__init__` (defaults applied; percent fields divided by
100).  Callers check `property_name` for NaN before calling, so the name
default is never observable. -/
def create_property (d : PropertyData) : PropertyObj where
  kind := if d.is_existing_property then .existing else .future
  property_name := d.property_name.getD ""
  mortgage_rate := d.mortgage_rate.getD 4 / 100
  mortgage_term_years := d.mortgage_term_years.getD 30
  appreciation_rate := d.appreciation_rate.getD 3 / 100
  sale_year := d.sale_year
  purchase_year := d.purchase_year.getD 2020
  purchase_price := d.purchase_price.getD 0
  down_payment_percent := d.down_payment_percent.getD 20 / 100
  current_value := d.current_value.getD 0
  current_mortgage_balance := d.current_mortgage_balance.getD 0

namespace PropertyObj

/-- Embedding of `Property.is_sold_before_year`. -/
def is_sold_before_year (p : PropertyObj) (year : Int) : Bool :=
  match p.sale_year with
  | some sy => year > sy
  | none => false

/-- Embedding of `Property.is_sold_in_year`. -/
def is_sold_in_year (p : PropertyObj) (year : Int) : Bool :=
  match p.sale_year with
  | some sy => sy == year
  | none => false

/-- Embedding of `calculate_value_at_year`: `ExistingProperty` appreciates
`current_value` from `current_year` forward, `FutureProperty` appreciates
`purchase_price` from `purchase_year` forward (0 before purchase). -/
def calculate_value_at_year (p : PropertyObj) (year current_year : Int) : ℚ :=
  match p.kind with
  | .existing =>
      p.current_value * (1 + p.appreciation_rate) ^ (max 0 (year - current_year)).toNat
  | .future =>
      if year < p.purchase_year then 0
      else p.purchase_price * (1 + p.appreciation_rate) ^ (year - p.purchase_year).toNat

/-- Embedding of `calculate_mortgage_balance_at_year` for both variants. -/
def calculate_mortgage_balance_at_year (p : PropertyObj) (year current_year : Int) : ℚ :=
  match p.kind with
  | .existing =>
      if p.current_mortgage_balance ≤ 0 then 0
      else
        let years_since_current := year - current_year
        if years_since_current ≤ 0 then p.current_mortgage_balance
        else
          let years_already_paid := current_year - p.purchase_year
          let remaining_term_years := p.mortgage_term_years - years_already_paid
          if remaining_term_years ≤ years_since_current then 0
          else
            calculate_mortgage_balance p.current_mortgage_balance p.mortgage_rate
              remaining_term_years (years_since_current * 12)
  | .future =>
      if year < p.purchase_year then 0
      else
        let years_since_purchase := year - p.purchase_year
        let mortgage_principal := p.purchase_price * (1 - p.down_payment_percent)
        if years_since_purchase ≥ p.mortgage_term_years then 0
        else
          calculate_mortgage_balance mortgage_principal p.mortgage_rate
            p.mortgage_term_years (years_since_purchase * 12)

/-- Embedding of `Property.calculate_equity_at_year`. -/
def calculate_equity_at_year (p : PropertyObj) (year current_year : Int) : ℚ :=
  if p.is_sold_before_year year then 0
  else
    max 0 (p.calculate_value_at_year year current_year -
      p.calculate_mortgage_balance_at_year year current_year)

/-- Embedding of `Property.calculate_sale_proceeds`; the only caller passes
the default closing-cost rate 0.06. -/
def calculate_sale_proceeds (p : PropertyObj) (year current_year : Int)
    (closing_cost_rate : ℚ) : ℚ :=
  if p.is_sold_in_year year then
    p.calculate_equity_at_year year current_year * (1 - closing_cost_rate)
  else 0

/-- Embedding of `FutureProperty.get_down_payment_in_year` (the
`hasattr` check in the aggregator restricts it to the future variant). -/
def get_down_payment_in_year (p : PropertyObj) (year : Int) : ℚ :=
  if year == p.purchase_year then p.purchase_price * p.down_payment_percent
  else 0

end PropertyObj

/-! ## Real-estate aggregate impact (src/models/real_estate_v2.py) -/

/-- Python-dict insertion into an association list: an existing key keeps
its position and gets the new value, a new key is appended. -/
def dictInsert {α : Type} (l : List (String × α)) (k : String) (v : α) :
    List (String × α) :=
  match l with
  | [] => [(k, v)]
  | (k', v') :: rest =>
      if k' == k then (k, v) :: rest else (k', v') :: dictInsert rest k v

/-- Result dictionary of `calculate_real_estate_impact_v2`. -/
structure REImpact where
  annual_expenses : ℚ
  annual_income : ℚ
  one_time_expenses : ℚ
  property_values : List (String × ℚ)
  equity_values : List (String × ℚ)
  sale_proceeds : ℚ
deriving DecidableEq

/-- Body of the per-property iteration of `calculate_real_estate_impact_v2`
(one pass of the `for prop_data in properties` loop). -/
def impactStep (current_year year : Int) (acc : REImpact) (d : PropertyData) : REImpact :=
  match d.property_name with
  | none => acc
  | some _ =>
    let p := create_property d
    if p.is_sold_before_year year then acc
    else
      let property_value := p.calculate_value_at_year year current_year
      let equity_value := p.calculate_equity_at_year year current_year
      let mortgage_balance := p.calculate_mortgage_balance_at_year year current_year
      let acc := { acc with
        property_values := dictInsert acc.property_values p.property_name property_value
        equity_values := dictInsert acc.equity_values p.property_name equity_value }
      let acc :=
        if p.kind = .future then
          { acc with one_time_expenses :=
              acc.one_time_expenses + p.get_down_payment_in_year year }
        else acc
      let acc :=
        if mortgage_balance > 0 ∧ ¬ p.is_sold_in_year year then
          let monthly_payment :=
            if p.kind = .existing ∧ p.current_mortgage_balance > 0 then
              let years_already_paid := current_year - p.purchase_year
              let remaining_term := max 1 (p.mortgage_term_years - years_already_paid)
              calculate_monthly_mortgage_payment p.current_mortgage_balance
                p.mortgage_rate remaining_term
            else
              let mortgage_principal := p.purchase_price * (1 - p.down_payment_percent)
              calculate_monthly_mortgage_payment mortgage_principal
                p.mortgage_rate p.mortgage_term_years
          { acc with annual_expenses := acc.annual_expenses + monthly_payment * 12 }
        else acc
      if p.is_sold_in_year year then
        { acc with
          sale_proceeds := acc.sale_proceeds + p.calculate_sale_proceeds year current_year (6/100)
          equity_values := dictInsert acc.equity_values p.property_name 0 }
      else acc

/-- Embedding of `calculate_real_estate_impact_v2(properties, current_year,
age, year)`; the `age` parameter is accepted but unused, as in the source. -/
def calculate_real_estate_impact_v2 (properties : List PropertyData)
    (current_year age year : Int) : REImpact :=
  let _ := age
  properties.foldl (impactStep current_year year)
    ⟨0, 0, 0, [], [], 0⟩

/-! ## ProjectionCache (src/services/projection_cache.py) -/

/-- Embedding of `ProjectionCache`: `people_ages` keyed by
`(person_name, year)` (the source's `f"{name}_{year}"` string key) and
`re_impact` keyed by `year` (the source's `f"re_{year}"`). -/
structure ProjectionCache where
  people_ages : List ((String × Int) × Option Int)
  re_impact : List (Int × REImpact)
deriving DecidableEq

/-- Embedding of `ProjectionCache.clear` (also the freshly constructed
cache, since `__init__` calls `clear`). -/
def ProjectionCache.clear (_ : ProjectionCache) : ProjectionCache := ⟨[], []⟩

/-- Embedding of `ProjectionCache.get_person_age`; returns the (possibly
cached) age together with the updated cache state. -/
def ProjectionCache.get_person_age (c : ProjectionCache) (person_name : String)
    (year : Int) (people_data : List (String × Int)) (current_year : Int) :
    Option Int × ProjectionCache :=
  match c.people_ages.lookup (person_name, year) with
  | some a => (a, c)
  | none =>
      let a :=
        match people_data.lookup person_name with
        | some current_age => some (current_age + (year - current_year))
        | none => none
      (a, { c with people_ages := ((person_name, year), a) :: c.people_ages })

/-- Embedding of `ProjectionCache.get_real_estate_impact`; the cache key is
the year alone.  Returns the impact together with the updated cache. -/
def ProjectionCache.get_real_estate_impact (c : ProjectionCache)
    (properties : List PropertyData) (current_year age year : Int) :
    REImpact × ProjectionCache :=
  match c.re_impact.lookup year with
  | some imp => (imp, c)
  | none =>
      let imp := calculate_real_estate_impact_v2 properties current_year age year
      (imp, { c with re_impact := (year, imp) :: c.re_impact })

/-! ## Scenario data model (the dictionaries consumed by projection.py) -/

/-- One entry of `scenario['people']`. -/
structure PersonData where
  name : String
  current_age : Int
deriving DecidableEq

/-- One entry of `scenario['income_sources']` or
`scenario['retirement_income']`.  Required keys are `Option`-valued
because the source accesses them with `[...]`, which raises when the key
is absent (modelled as a `none` result). -/
structure IncomeItem where
  person : Option String
  start_age : Option Int
  end_age : Option Int
  annual_amount : Option ℚ
  growth_rate : Option ℚ
deriving DecidableEq

/-- One entry of `scenario['recurring_expenses']`; all five required keys
may be absent, which the source detects and skips. -/
structure ExpenseItem where
  name : Option String
  person : Option String
  start_age : Option Int
  end_age : Option Int
  annual_amount : Option ℚ
  growth_rate : Option ℚ
deriving DecidableEq

/-- One entry of `scenario['planned_expenses']`; `none` models a missing
key or a NaN value (both satisfy `pd.isna`). -/
structure PlannedExpense where
  year : Option Int
  amount : Option ℚ
  recurring_years : Option Int
  repeat_every : Option Int
  repeat_until_year : Option Int
deriving DecidableEq

/-- One entry of `scenario['account_details']`.  `account_type`,
`account_owner` and `current_balance` are accessed with `[...]` and are
present in every scenario the UI builds; the remaining keys go through
`.get` with defaults. -/
structure AccountDetail where
  account_type : String
  account_owner : String
  current_balance : ℚ
  aggressive_rate : Option ℚ
  conservative_rate : Option ℚ
  transition_start_age : Option ℚ
  transition_end_age : Option ℚ
deriving DecidableEq

/-- The scenario dictionary.  `accounts = some m` models the legacy form in
which `scenario['accounts']` is a plain name-to-balance dict; otherwise the
engines read `account_details`.  Empty lists model both an absent key and
an empty value (the source guards every use with
`'k' in scenario and scenario['k']`). -/
structure Scenario where
  current_age : Int
  max_projection_age : Int
  current_year : Int
  people : List PersonData
  income_sources : List IncomeItem
  retirement_income : List IncomeItem
  recurring_expenses : List ExpenseItem
  planned_expenses : List PlannedExpense
  real_estate : List PropertyData
  accounts : Option (List (String × ℚ))
  account_details : List AccountDetail
deriving DecidableEq

/-! ## Income and expense totals (src/models/projection.py) -/

/-- Age used for a named item owner: the person's projected age when the
owner is found in `people`, else the primary `age` (also for "Joint"). -/
def itemAgeFor (people : List PersonData) (scenario_current_year age year : Int)
    (person : String) : Int :=
  if person == "Joint" then age
  else
    match people.find? (fun p => p.name == person) with
    | some p => p.current_age + (year - scenario_current_year)
    | none => age

/-- One pass of the income loop: the amount an income item contributes, or
`none` when the source would raise (a required key is absent at the point
Python evaluates it; note the chained comparison short-circuits, so
`end_age` is only read once `start_age ≤ income_age` holds). -/
def incomeItemAmount (people : List PersonData) (scenario_current_year age year : Int)
    (it : IncomeItem) : Option ℚ :=
  let income_age := itemAgeFor people scenario_current_year age year (it.person.getD "Joint")
  match it.start_age with
  | none => none
  | some sa =>
      if sa ≤ income_age then
        match it.end_age with
        | none => none
        | some ea =>
            if income_age ≤ ea then
              match it.annual_amount, it.growth_rate with
              | some amt, some g =>
                  some (amt * (1 + g / 100) ^ (income_age - sa).toNat)
              | _, _ => none
            else some 0
      else some 0

/-- Embedding of `calculate_total_income(scenario, age, year)`: the
`income_sources` loop, the structurally identical `retirement_income`
loop, then the cached real-estate `annual_income`.  Returns `none` when
the Python function would raise. -/
def calculate_total_income (s : Scenario) (age year : Int) (cache : ProjectionCache) :
    Option (ℚ × ProjectionCache) := do
  let t1 ← s.income_sources.foldlM
    (fun acc it => (incomeItemAmount s.people s.current_year age year it).map (acc + ·)) 0
  let t2 ← s.retirement_income.foldlM
    (fun acc it => (incomeItemAmount s.people s.current_year age year it).map (acc + ·)) t1
  if s.real_estate ≠ [] then
    let (re_impact, cache) := cache.get_real_estate_impact s.real_estate s.current_year age year
    some (t2 + re_impact.annual_income, cache)
  else
    some (t2, cache)

/-- One pass of the recurring-expenses loop: missing required fields and
inverted age ranges are skipped (contribute 0), a negative compounded
amount is clamped to 0. -/
def expenseItemAmount (people : List PersonData) (scenario_current_year age year : Int)
    (e : ExpenseItem) : ℚ :=
  if e.person.isNone ∨ e.start_age.isNone ∨ e.end_age.isNone ∨
      e.annual_amount.isNone ∨ e.growth_rate.isNone then 0
  else
    let expense_age := itemAgeFor people scenario_current_year age year (e.person.getD "Joint")
    let sa := e.start_age.getD 0
    let ea := e.end_age.getD 0
    if sa > ea then 0
    else if sa ≤ expense_age ∧ expense_age ≤ ea then
      let growth_rate := e.growth_rate.getD 0 / 100
      let amount := e.annual_amount.getD 0 * (1 + growth_rate) ^ (expense_age - sa).toNat
      if amount < 0 then 0 else amount
    else 0

/-- One pass of the planned-expenses loop; `none` models the
`ZeroDivisionError` raised by `years_since_first % 0` (reached only when
both repeat keys are present, `repeat_every` is 0 and `year` is after the
first occurrence). -/
def plannedExpenseAmount (year : Int) (p : PlannedExpense) : Option ℚ :=
  match p.year, p.amount with
  | some py, some amt =>
      let base :=
        if py == year then amt
        else
          match p.recurring_years with
          | some ry =>
              if ry > 1 ∧ py ≤ year ∧ year < py + ry then amt else 0
          | none => 0
      match p.repeat_every, p.repeat_until_year with
      | some rep, some ru =>
          let years_since_first := year - py
          if years_since_first > 0 then
            if rep = 0 then none
            else if years_since_first % rep = 0 ∧ year ≤ ru then some (base + amt)
            else some base
          else some base
      | _, _ => some base
  | _, _ => some 0

/-- Embedding of `calculate_total_expenses(scenario, age, year)`: the
defensive recurring-expenses loop (never raises), the planned-expenses
loop (can raise only through a zero `repeat_every`), then the cached
real-estate annual and one-time expenses. -/
def calculate_total_expenses (s : Scenario) (age year : Int) (cache : ProjectionCache) :
    Option (ℚ × ProjectionCache) := do
  let t1 := s.recurring_expenses.foldl
    (fun acc e => acc + expenseItemAmount s.people s.current_year age year e) 0
  let t2 ← s.planned_expenses.foldlM
    (fun acc p => (plannedExpenseAmount year p).map (acc + ·)) t1
  if s.real_estate ≠ [] then
    let (re_impact, cache) := cache.get_real_estate_impact s.real_estate s.current_year age year
    some (t2 + re_impact.annual_expenses + re_impact.one_time_expenses, cache)
  else
    some (t2, cache)

/-! ## Deterministic projection engine (src/models/projection.py) -/

/-- The mutable working copy of one account held in `account_balances`
during a run.  `Option` fields model keys the two engines may omit when
building the dict (the Monte Carlo legacy branch omits `conservative_rate`
and both transition ages).  The `growth_strategy`/`account_type` entries
set by the Monte Carlo engine are never read on any simulated path and are
not modelled. -/
structure AccountState where
  balance : ℚ
  aggressive_rate : Option ℚ
  conservative_rate : Option ℚ
  transition_start_age : Option ℚ
  transition_end_age : Option ℚ
  account_owner : String
deriving DecidableEq

/-- Embedding of `calculate_account_growth_rate(account, owner_age,
people_data)`; the `people_data` parameter is unused in the source and is
dropped.  Ages are taken in ℚ (a superset of the integer ages the engines
pass). -/
def calculate_account_growth_rate (account : AccountState) (owner_age : ℚ) : ℚ :=
  let aggressive_rate := account.aggressive_rate.getD 6
  let conservative_rate := account.conservative_rate.getD 6
  let transition_start := account.transition_start_age.getD 50
  let transition_end := account.transition_end_age.getD 65
  if owner_age ≤ transition_start then aggressive_rate / 100
  else if owner_age ≥ transition_end then conservative_rate / 100
  else
    let transition_progress := (owner_age - transition_start) / (transition_end - transition_start)
    (aggressive_rate + (conservative_rate - aggressive_rate) * transition_progress) / 100

/-- Account dict built by `project_scenario`: the legacy `accounts` dict
branch pins rates 0.05/0.05 and window 50–65; the `account_details` branch
copies the account's fields with `.get` defaults applied. -/
def buildAccountBalances (s : Scenario) : List (String × AccountState) :=
  match s.accounts with
  | some legacy =>
      legacy.foldl (fun m (nb : String × ℚ) =>
        dictInsert m nb.1
          ⟨nb.2, some 0.05, some 0.05, some 50, some 65, "Joint"⟩) []
  | none =>
      s.account_details.foldl (fun m a =>
        dictInsert m (a.account_type ++ "_" ++ a.account_owner)
          ⟨a.current_balance, some (a.aggressive_rate.getD 0.05),
            some (a.conservative_rate.getD 0.05),
            some (a.transition_start_age.getD 50),
            some (a.transition_end_age.getD 65), a.account_owner⟩) []

/-- Owner age used in the engines' growth loops: the owner's projected age
when found in `people_data`, else the primary age ("Joint" included). -/
def ownerAgeFor (people : List PersonData) (current_year age year : Int)
    (owner : String) : Int :=
  if owner == "Joint" then age
  else
    match people.find? (fun p => p.name == owner) with
    | some p => p.current_age + (year - current_year)
    | none => age

/-- Deterministic growth loop of `project_scenario`: applies each
account's rate for the year and returns the updated dict together with
the accumulated `total_return_amount` and `total_portfolio_balance`. -/
def growAccounts (people : List PersonData) (current_year age year : Int) :
    List (String × AccountState) → List (String × AccountState) × ℚ × ℚ
  | [] => ([], 0, 0)
  | (k, a) :: rest =>
      let owner_age := ownerAgeFor people current_year age year a.account_owner
      let growth_rate := calculate_account_growth_rate a (owner_age : ℚ)
      let account_return := a.balance * growth_rate
      let balance' := a.balance + account_return
      let (rest', tr, tb) := growAccounts people current_year age year rest
      ((k, { a with balance := balance' }) :: rest', account_return + tr, balance' + tb)

/-- Cashflow-distribution block shared verbatim by both engines: pro-rata
distribution with a floor at 0 when the summed post-growth balance is
positive, otherwise the whole positive surplus is deposited in the first
account. -/
def applyCashflow (ab : List (String × AccountState)) (net_cashflow total : ℚ) :
    List (String × AccountState) :=
  if net_cashflow ≠ 0 then
    if total > 0 then
      ab.map (fun (ka : String × AccountState) =>
        let account_proportion := ka.2.balance / total
        let account_contribution := net_cashflow * account_proportion
        let balance' := ka.2.balance + account_contribution
        (ka.1, { ka.2 with balance := if balance' < 0 then 0 else balance' }))
    else if net_cashflow > 0 then
      match ab with
      | [] => []
      | (k, a) :: rest => (k, { a with balance := max 0 net_cashflow }) :: rest
    else ab
  else ab

/-- Sum of the balances of an account dict (`sum(acc['balance'] ...)`). -/
def sumBalances (ab : List (String × AccountState)) : ℚ :=
  ab.foldr (fun ka acc => ka.2.balance + acc) 0

/-- Sum of the values of a string-keyed dict (`sum(d.values())`). -/
def sumValues (l : List (String × ℚ)) : ℚ :=
  l.foldr (fun kv acc => kv.2 + acc) 0

/-- One row of the projection output. -/
structure YearRecord where
  age : Int
  year : Int
  income : ℚ
  expenses : ℚ
  net_cashflow : ℚ
  real_estate_sales : ℚ
  portfolio_contribution : ℚ
  portfolio_return_amount : ℚ
  portfolio_balance : ℚ
  real_estate_equity : ℚ
  total_net_worth : ℚ
deriving DecidableEq, Inhabited

/-- One iteration of the `for age in range(current_age, max_age + 1)` loop
of `project_scenario`: produces the emitted row and the carried state
(account dict, real-estate equity snapshot, cache). -/
def projectYear (s : Scenario) (ab : List (String × AccountState)) (re_equity : ℚ)
    (cache : ProjectionCache) (age year : Int) :
    Option (YearRecord × List (String × AccountState) × ℚ × ProjectionCache) := do
  let (income, cache) ← calculate_total_income s age year cache
  let (expenses, cache) ← calculate_total_expenses s age year cache
  let (real_estate_cash_from_sales, re_equity, cache) :=
    if s.real_estate ≠ [] then
      let (re_impact, cache) := cache.get_real_estate_impact s.real_estate s.current_year age year
      (re_impact.sale_proceeds, sumValues re_impact.equity_values, cache)
    else (0, re_equity, cache)
  let net_cashflow := income - expenses + real_estate_cash_from_sales
  let (ab, total_return_amount, total_portfolio_balance) :=
    growAccounts s.people s.current_year age year ab
  let ab := applyCashflow ab net_cashflow total_portfolio_balance
  let total_portfolio_balance := sumBalances ab
  some (⟨age, year, income, expenses, net_cashflow - real_estate_cash_from_sales,
      real_estate_cash_from_sales, net_cashflow, total_return_amount,
      total_portfolio_balance, re_equity, total_portfolio_balance + re_equity⟩,
    ab, re_equity, cache)

/-- The year loop of `project_scenario`, driven by the number of remaining
ages. -/
def projectLoop (s : Scenario) :
    Nat → Int → Int → List (String × AccountState) → ℚ → ProjectionCache →
    Option (List YearRecord)
  | 0, _, _, _, _, _ => some []
  | n + 1, age, year, ab, re_equity, cache => do
      let (row, ab, re_equity, cache) ← projectYear s ab re_equity cache age year
      let rest ← projectLoop s n (age + 1) (year + 1) ab re_equity cache
      some (row :: rest)

/-- Embedding of `project_scenario(scenario)`: clears the cache, builds the
account dict, runs one iteration per age from `current_age` to
`max_projection_age` inclusive; `none` when the Python run would raise. -/
def project_scenario (s : Scenario) : Option (List YearRecord) :=
  projectLoop s (s.max_projection_age + 1 - s.current_age).toNat
    s.current_age s.current_year (buildAccountBalances s) 0 ⟨[], []⟩

/-! ## Monte Carlo engine (src/models/monte_carlo.py)

Randomness is embedded as an oracle: `draw : Nat → ℚ` supplies, for each
account position, the entry of `chol @ uncorrelated` (the correlated
standard-normal vector) for the year — and the single standard-normal
draw in the one-account case, where `np.random.normal(μ, σ) = μ + σ·z`.
The engine method `calculate_volatility_from_return` is passed in as
`volFn` so that a run with every volatility forced to 0 is the
instantiation `volFn = fun _ => 0`. -/

namespace MonteCarloEngine

/-- Embedding of `MonteCarloEngine.calculate_volatility_from_return`:
piecewise-linear volatility as a function of the mean return rate. -/
def calculate_volatility_from_return (return_rate : ℚ) : ℚ :=
  let return_pct := return_rate * 100
  if return_pct ≥ 8 then 0.16 + (return_pct - 8) * 0.01
  else if return_pct ≥ 7 then 0.12 + (return_pct - 7) * 0.04
  else if return_pct ≥ 5.5 then 0.08 + (return_pct - 5.5) * 0.027
  else if return_pct ≥ 4 then 0.04 + (return_pct - 4) * 0.027
  else 0.02 + return_pct * 0.005

/-- Embedding of `get_account_volatility(account, deterministic_rate)` on
the path `run_single_simulation` exercises: `deterministic_rate` is always
passed, so the account itself is not read. -/
def get_account_volatility (volFn : ℚ → ℚ) (deterministic_rate : ℚ) : ℚ :=
  volFn deterministic_rate

/-- The `returns` list built by the multi-account branch of
`generate_correlated_returns`: `expected + vol * correlated[i]`, pairing
positionally. -/
def applyCorrelated (draw : Nat → ℚ) :
    Nat → List ℚ → List ℚ → List ℚ
  | _, [], _ => []
  | _, _ :: _, [] => []
  | i, e :: es, v :: vs => (e + v * draw i) :: applyCorrelated draw (i + 1) es vs

/-- Embedding of `generate_correlated_returns`: one account draws directly
from `normal(expected, vol)`; several accounts transform correlated
standard-normal draws by each `(mean, volatility)` pair. -/
def generate_correlated_returns (draw : Nat → ℚ)
    (expected_returns volatilities : List ℚ) : List ℚ :=
  if expected_returns.length = 1 then
    [expected_returns.headD 0 + volatilities.headD 0 * draw 0]
  else
    applyCorrelated draw 0 expected_returns volatilities

/-- Account dict built by `run_single_simulation`: the legacy branch sets
only `balance`/`aggressive_rate` (plus strategy/type tags that are never
read) — `conservative_rate` and both transition ages are *absent* — while
the `account_details` branch copies the same fields as `project_scenario`. -/
def mcBuildAccountBalances (s : Scenario) : List (String × AccountState) :=
  match s.accounts with
  | some legacy =>
      legacy.foldl (fun m (nb : String × ℚ) =>
        dictInsert m nb.1
          ⟨nb.2, some 0.05, none, none, none, "Joint"⟩) []
  | none =>
      s.account_details.foldl (fun m a =>
        dictInsert m (a.account_type ++ "_" ++ a.account_owner)
          ⟨a.current_balance, some (a.aggressive_rate.getD 0.05),
            some (a.conservative_rate.getD 0.05),
            some (a.transition_start_age.getD 50),
            some (a.transition_end_age.getD 65), a.account_owner⟩) []

/-- The first pass of the Monte Carlo growth section: the per-account
deterministic rates, in dict order. -/
def deterministicRates (people : List PersonData) (current_year age year : Int)
    (ab : List (String × AccountState)) : List ℚ :=
  ab.map (fun ka =>
    calculate_account_growth_rate ka.2
      ((ownerAgeFor people current_year age year ka.2.account_owner : Int) : ℚ))

/-- The second pass: apply `stochastic_returns[i]` to account `i`,
accumulating `total_return_amount` and `total_portfolio_balance`. -/
def mcApplyReturns :
    List (String × AccountState) → List ℚ → List (String × AccountState) × ℚ × ℚ
  | [], _ => ([], 0, 0)
  | (k, a) :: rest, rs =>
      let stochastic_rate := rs.headD 0
      let account_return := a.balance * stochastic_rate
      let balance' := a.balance + account_return
      let (rest', tr, tb) := mcApplyReturns rest rs.tail
      ((k, { a with balance := balance' }) :: rest', account_return + tr, balance' + tb)

/-- One row of a Monte Carlo trial's output (a `YearRecord` plus the
trailing `simulation_id` column). -/
structure YearRecordMC where
  age : Int
  year : Int
  income : ℚ
  expenses : ℚ
  net_cashflow : ℚ
  real_estate_sales : ℚ
  portfolio_contribution : ℚ
  portfolio_return_amount : ℚ
  portfolio_balance : ℚ
  real_estate_equity : ℚ
  total_net_worth : ℚ
  simulation_id : Nat
deriving DecidableEq, Inhabited

/-- Projection of a Monte Carlo row onto the columns shared with the
deterministic engine. -/
def YearRecordMC.toYearRecord (r : YearRecordMC) : YearRecord :=
  ⟨r.age, r.year, r.income, r.expenses, r.net_cashflow, r.real_estate_sales,
    r.portfolio_contribution, r.portfolio_return_amount, r.portfolio_balance,
    r.real_estate_equity, r.total_net_worth⟩

/-- One iteration of the year loop of `run_single_simulation`: identical to
`projectYear` except that the account returns come from
`generate_correlated_returns` (skipped when there are no accounts). -/
def mcProjectYear (volFn : ℚ → ℚ) (draw : Nat → ℚ) (simulation_id : Nat)
    (s : Scenario) (ab : List (String × AccountState)) (re_equity : ℚ)
    (cache : ProjectionCache) (age year : Int) :
    Option (YearRecordMC × List (String × AccountState) × ℚ × ProjectionCache) := do
  let (income, cache) ← calculate_total_income s age year cache
  let (expenses, cache) ← calculate_total_expenses s age year cache
  let (real_estate_cash_from_sales, re_equity, cache) :=
    if s.real_estate ≠ [] then
      let (re_impact, cache) := cache.get_real_estate_impact s.real_estate s.current_year age year
      (re_impact.sale_proceeds, sumValues re_impact.equity_values, cache)
    else (0, re_equity, cache)
  let net_cashflow := income - expenses + real_estate_cash_from_sales
  let (ab, total_return_amount, total_portfolio_balance) :=
    if ab.isEmpty then (ab, 0, 0)
    else
      let det_rates := deterministicRates s.people s.current_year age year ab
      let vols := det_rates.map (get_account_volatility volFn)
      let stochastic_returns := generate_correlated_returns draw det_rates vols
      mcApplyReturns ab stochastic_returns
  let ab := applyCashflow ab net_cashflow total_portfolio_balance
  let total_portfolio_balance := sumBalances ab
  some (⟨age, year, income, expenses, net_cashflow - real_estate_cash_from_sales,
      real_estate_cash_from_sales, net_cashflow, total_return_amount,
      total_portfolio_balance, re_equity, total_portfolio_balance + re_equity,
      simulation_id⟩,
    ab, re_equity, cache)

/-- The year loop of `run_single_simulation`; `draws n` is the correlated
draw oracle for the `n`-th simulated year. -/
def mcLoop (volFn : ℚ → ℚ) (draws : Nat → Nat → ℚ) (simulation_id : Nat) (s : Scenario) :
    Nat → Nat → Int → Int → List (String × AccountState) → ℚ → ProjectionCache →
    Option (List YearRecordMC)
  | 0, _, _, _, _, _, _ => some []
  | n + 1, idx, age, year, ab, re_equity, cache => do
      let (row, ab, re_equity, cache) ←
        mcProjectYear volFn (draws idx) simulation_id s ab re_equity cache age year
      let rest ← mcLoop volFn draws simulation_id s n (idx + 1) (age + 1) (year + 1) ab re_equity cache
      some (row :: rest)

/-- Embedding of `MonteCarloEngine.run_single_simulation(scenario,
simulation_id)`: fresh cache, its own account dict, and the same year loop
as the deterministic engine with stochastic returns.  `volFn` is the
engine's volatility function (`calculate_volatility_from_return` in the
source; `fun _ => 0` models every volatility forced to 0) and `draws`
models the seeded random stream. -/
def run_single_simulation (volFn : ℚ → ℚ) (draws : Nat → Nat → ℚ)
    (s : Scenario) (simulation_id : Nat) : Option (List YearRecordMC) :=
  mcLoop volFn draws simulation_id s (s.max_projection_age + 1 - s.current_age).toNat
    0 s.current_age s.current_year (mcBuildAccountBalances s) 0 ⟨[], []⟩

end MonteCarloEngine

/-! ## Claim C10: the cache memoizes on the year alone -/

/-- C10: within one cache lifetime, `get_real_estate_impact` memoizes
solely on `year`: a second call with the same year returns the first
call's value even when the properties list, current_year, or age
arguments differ. -/
theorem cache_memoizes_on_year_only (c : ProjectionCache)
    (p1 p2 : List PropertyData) (cy1 cy2 a1 a2 y : Int) :
    ((c.get_real_estate_impact p1 cy1 a1 y).2.get_real_estate_impact p2 cy2 a2 y).1 =
      (c.get_real_estate_impact p1 cy1 a1 y).1 := by
  unfold ProjectionCache.get_real_estate_impact
  cases h : c.re_impact.lookup y with
  | some imp => simp [h]
  | none => simp [h, List.lookup]

/-! ## Claim C8: the mortgage fully amortizes at term end -/

/-- C8: for principal `P ≥ 0`, rate `r ≥ 0` and term `T > 0`,
`calculate_mortgage_balance P r T (T·12) = 0`; more generally the balance
is 0 for every `payments_made ≥ T·12`, and the returned balance is always
nonnegative. -/
theorem mortgage_balance_amortizes (P r : ℚ) (T pm : Int)
    (hP : 0 ≤ P) (hr : 0 ≤ r) (hT : 0 < T) :
    calculate_mortgage_balance P r T (T * 12) = 0 ∧
    (T * 12 ≤ pm → calculate_mortgage_balance P r T pm = 0) ∧
    0 ≤ calculate_mortgage_balance P r T pm := by
  have hT12 : (0 : ℚ) < (T : ℚ) * 12 := by
    have : (0 : ℚ) < (T : ℚ) := by exact_mod_cast hT
    linarith
  unfold calculate_mortgage_balance
  by_cases h0 : r = 0
  · simp only [if_pos h0]
    refine ⟨?_, fun hpm => ?_, le_max_left _ _⟩
    · have : ((T * 12 : Int) : ℚ) = (T : ℚ) * 12 := by push_cast; ring
      rw [this, max_eq_left]
      have hne : (T : ℚ) * 12 ≠ 0 := ne_of_gt hT12
      field_simp
    · rw [max_eq_left]
      have hpm' : (T : ℚ) * 12 ≤ (pm : ℚ) := by exact_mod_cast hpm
      have h1 : P * ((T : ℚ) * 12) ≤ P * (pm : ℚ) :=
        mul_le_mul_of_nonneg_left hpm' hP
      have h2 : P ≤ P * (pm : ℚ) / ((T : ℚ) * 12) := by
        rw [le_div_iff hT12]; linarith
      linarith
  · simp only [if_neg h0]
    refine ⟨?_, fun hpm => ?_, ?_⟩
    · rw [if_pos le_rfl]
    · rw [if_pos hpm]
    · split
      · exact le_rfl
      · exact le_max_left _ _

/-- C8 witness: a 30-year loan at 5% on 100000 has zero balance after 360
payments and a nonnegative balance after 100 payments. -/
theorem mortgage_balance_amortizes_witness :
    (0 : ℚ) ≤ 100000 ∧ (0 : ℚ) ≤ 1/20 ∧ (0 : Int) < 30 ∧
    calculate_mortgage_balance 100000 (1/20) 30 (30 * 12) = 0 ∧
    0 ≤ calculate_mortgage_balance 100000 (1/20) 30 100 := by
  refine ⟨by norm_num, by norm_num, by norm_num, ?_, ?_⟩
  · exact (mortgage_balance_amortizes 100000 (1/20) 30 (30 * 12)
      (by norm_num) (by norm_num) (by norm_num)).1
  · exact (mortgage_balance_amortizes 100000 (1/20) 30 100
      (by norm_num) (by norm_num) (by norm_num)).2.2

/-! ## Claim C2: property equity is nonnegative and zero after the sale -/

/-- A future-variant property bought in 2020 for 100000 with a 100% down
payment (no mortgage), no appreciation, to be sold in 2025. -/
def exPropC2 : PropertyObj :=
  ⟨.future, "House", 0, 30, 0, some 2025, 2020, 100000, 1, 0, 0⟩

/-- C2 counterexample: in the sale year itself `calculate_equity_at_year`
returns the full (positive) equity, not 0 — the claim's "including the
sale year itself" fails on the code. -/
theorem equity_at_sale_year_not_zero :
    exPropC2.sale_year = some 2025 ∧
    PropertyObj.calculate_equity_at_year exPropC2 2025 2025 = 100000 := by
  refine ⟨rfl, ?_⟩
  norm_num [PropertyObj.calculate_equity_at_year, PropertyObj.is_sold_before_year,
    PropertyObj.calculate_value_at_year, PropertyObj.calculate_mortgage_balance_at_year,
    calculate_mortgage_balance, exPropC2]

/-- C2 amended: the equity returned by `calculate_equity_at_year` is always
`≥ 0`, and when the property has a `sale_year` it is exactly 0 for every
year *strictly* greater than that sale year (in the sale year itself the
method returns the actual equity; the aggregator separately reports 0 in
its equity map for that year). -/
theorem equity_nonneg_and_zero_after_sale (p : PropertyObj) (year current_year sy : Int) :
    0 ≤ p.calculate_equity_at_year year current_year ∧
    (p.sale_year = some sy → sy < year →
      p.calculate_equity_at_year year current_year = 0) := by
  unfold PropertyObj.calculate_equity_at_year
  constructor
  · split
    · exact le_rfl
    · exact le_max_left _ _
  · intro hsy hlt
    rw [if_pos]
    unfold PropertyObj.is_sold_before_year
    rw [hsy]
    simpa using hlt

/-- C2 witness: the example property's equity is nonnegative in 2024 and
exactly 0 in 2026, the year after its sale. -/
theorem equity_nonneg_and_zero_after_sale_witness :
    exPropC2.sale_year = some 2025 ∧ (2025 : Int) < 2026 ∧
    0 ≤ PropertyObj.calculate_equity_at_year exPropC2 2024 2025 ∧
    PropertyObj.calculate_equity_at_year exPropC2 2026 2025 = 0 := by
  refine ⟨rfl, by norm_num, ?_, ?_⟩
  · exact (equity_nonneg_and_zero_after_sale exPropC2 2024 2025 2025).1
  · exact (equity_nonneg_and_zero_after_sale exPropC2 2026 2025 2025).2 rfl (by norm_num)

/-! ## Claim C6: volatility as a function of mean return -/

/-- C6 counterexample: the volatility lookup is *not* monotonically
non-decreasing — at the 5.5% breakpoint it jumps down: a 5.49% mean
return is assigned volatility 0.08023 while 5.5% is assigned 0.08. -/
theorem volatility_not_monotone :
    (549/10000 : ℚ) ≤ 55/1000 ∧
    MonteCarloEngine.calculate_volatility_from_return (55/1000) <
      MonteCarloEngine.calculate_volatility_from_return (549/10000) := by
  constructor
  · norm_num
  · norm_num [MonteCarloEngine.calculate_volatility_from_return]

/-- C6 amended: `calculate_volatility_from_return` is piecewise linear
with breakpoints at 4%, 5.5%, 7% and 8% mean return and is monotonically
non-decreasing *within* each of the regions below 5.5%, from 5.5% up to
7%, and from 7% upward (the pieces join continuously at 4% and 8%), but it
jumps *down* by 1/2000 at the 5.5% and 7% breakpoints, so global
monotonicity fails there. -/
theorem volatility_monotone_within_regions (r1 r2 : ℚ) (h12 : r1 ≤ r2)
    (hreg : r2 * 100 < 5.5 ∨ (5.5 ≤ r1 * 100 ∧ r2 * 100 < 7) ∨ 7 ≤ r1 * 100) :
    MonteCarloEngine.calculate_volatility_from_return r1 ≤
      MonteCarloEngine.calculate_volatility_from_return r2 := by
  have h12' : r1 * 100 ≤ r2 * 100 := by linarith
  simp only [MonteCarloEngine.calculate_volatility_from_return]
  rcases hreg with h | ⟨h1, h2⟩ | h <;> split_ifs <;> linarith

/-- C6 witness: two rates inside the region below the 5.5% breakpoint, in
monotone position. -/
theorem volatility_monotone_within_regions_witness :
    (3/100 : ℚ) ≤ 45/1000 ∧ (45/1000 : ℚ) * 100 < 5.5 ∧
    MonteCarloEngine.calculate_volatility_from_return (3/100) ≤
      MonteCarloEngine.calculate_volatility_from_return (45/1000) := by
  refine ⟨by norm_num, by norm_num, ?_⟩
  exact volatility_monotone_within_regions (3/100) (45/1000) (by norm_num)
    (Or.inl (by norm_num))

/-! ## Claim C3: the age-interpolated account growth rate -/

/-- An account dict whose rate and transition keys are all present, as the
`account_details` branch of either engine builds. -/
def accountWith (bal agg con ts te : ℚ) (owner : String) : AccountState :=
  ⟨bal, some agg, some con, some ts, some te, owner⟩

/-- In-window closed form: for `ts ≤ age ≤ te` with `ts < te` the rate
always equals the linear interpolation formula (the two constant branches
agree with it at the endpoints). -/
theorem growth_rate_window_form (bal agg con ts te : ℚ) (owner : String)
    (h : ts < te) (age : ℚ) (h1 : ts ≤ age) (h2 : age ≤ te) :
    calculate_account_growth_rate (accountWith bal agg con ts te owner) age =
      (agg + (con - agg) * ((age - ts) / (te - ts))) / 100 := by
  have hne : te - ts ≠ 0 := by intro hc; apply absurd h; linarith
  unfold calculate_account_growth_rate accountWith
  simp only [Option.getD_some]
  by_cases hle : age ≤ ts
  · have hts : age = ts := le_antisymm hle h1
    rw [if_pos hle, hts]
    field_simp
  · rw [if_neg hle]
    by_cases hge : age ≥ te
    · have hte : age = te := le_antisymm h2 hge
      rw [if_pos hge, hte]
      field_simp
    · rw [if_neg hge]

/-- C3: for an account with `transition_start_age < transition_end_age`
the per-year growth rate equals `aggressive_rate/100` at or below the
window start, `conservative_rate/100` at or above the window end, the
linear interpolation of the two strictly inside the window; the
interpolation formula agrees with both constants at the endpoints
(continuity), and the rate is monotone in age over the window (in the
direction given by the ordering of the two rates). -/
theorem growth_rate_piecewise_continuous_monotone
    (bal agg con ts te : ℚ) (owner : String) (h : ts < te) :
    (∀ age : ℚ, age ≤ ts →
      calculate_account_growth_rate (accountWith bal agg con ts te owner) age = agg / 100) ∧
    (∀ age : ℚ, te ≤ age →
      calculate_account_growth_rate (accountWith bal agg con ts te owner) age = con / 100) ∧
    (∀ age : ℚ, ts < age → age < te →
      calculate_account_growth_rate (accountWith bal agg con ts te owner) age =
        (agg + (con - agg) * ((age - ts) / (te - ts))) / 100) ∧
    ((agg + (con - agg) * ((ts - ts) / (te - ts))) / 100 = agg / 100 ∧
      (agg + (con - agg) * ((te - ts) / (te - ts))) / 100 = con / 100) ∧
    (∀ a1 a2 : ℚ, ts ≤ a1 → a1 ≤ a2 → a2 ≤ te →
      (agg ≤ con →
        calculate_account_growth_rate (accountWith bal agg con ts te owner) a1 ≤
          calculate_account_growth_rate (accountWith bal agg con ts te owner) a2) ∧
      (con ≤ agg →
        calculate_account_growth_rate (accountWith bal agg con ts te owner) a2 ≤
          calculate_account_growth_rate (accountWith bal agg con ts te owner) a1)) := by
  have hpos : (0 : ℚ) < te - ts := by linarith
  have hne : te - ts ≠ 0 := ne_of_gt hpos
  refine ⟨?_, ?_, ?_, ⟨?_, ?_⟩, ?_⟩
  · intro age hage
    unfold calculate_account_growth_rate accountWith
    simp only [Option.getD_some]
    rw [if_pos hage]
  · intro age hage
    unfold calculate_account_growth_rate accountWith
    simp only [Option.getD_some]
    have : ¬ age ≤ ts := by linarith
    rw [if_neg this, if_pos (by linarith : age ≥ te)]
  · intro age hl hr
    unfold calculate_account_growth_rate accountWith
    simp only [Option.getD_some]
    rw [if_neg (by linarith : ¬ age ≤ ts), if_neg (by linarith : ¬ age ≥ te)]
  · field_simp
  · field_simp
  · intro a1 a2 ha1 h12 ha2
    rw [growth_rate_window_form bal agg con ts te owner h a1 ha1 (by linarith),
      growth_rate_window_form bal agg con ts te owner h a2 (by linarith) ha2]
    have ht : (a1 - ts) / (te - ts) ≤ (a2 - ts) / (te - ts) :=
      (div_le_div_iff_of_pos_right hpos).mpr (by linarith)
    constructor
    · intro hac
      have : (con - agg) * ((a1 - ts) / (te - ts)) ≤ (con - agg) * ((a2 - ts) / (te - ts)) :=
        mul_le_mul_of_nonneg_left ht (by linarith)
      apply div_le_div_of_nonneg_right ?_ (by norm_num)
      linarith
    · intro hca
      have : (con - agg) * ((a2 - ts) / (te - ts)) ≤ (con - agg) * ((a1 - ts) / (te - ts)) :=
        mul_le_mul_of_nonpos_left ht (by linarith)
      apply div_le_div_of_nonneg_right ?_ (by norm_num)
      linarith

/-- C3 witness: a concrete account with window 50–60 and rates 8 → 5:
the rate at 45 is 8%, at 65 is 5%, and at 55 the interpolated 6.5%. -/
theorem growth_rate_piecewise_witness :
    (50 : ℚ) < 60 ∧
    calculate_account_growth_rate (accountWith 0 8 5 50 60 "Joint") 45 = 8 / 100 ∧
    calculate_account_growth_rate (accountWith 0 8 5 50 60 "Joint") 65 = 5 / 100 ∧
    calculate_account_growth_rate (accountWith 0 8 5 50 60 "Joint") 55 =
      (8 + (5 - 8) * ((55 - 50) / (60 - 50))) / 100 := by
  refine ⟨by norm_num, ?_, ?_, ?_⟩
  · exact (growth_rate_piecewise_continuous_monotone 0 8 5 50 60 "Joint"
      (by norm_num)).1 45 (by norm_num)
  · exact (growth_rate_piecewise_continuous_monotone 0 8 5 50 60 "Joint"
      (by norm_num)).2.1 65 (by norm_num)
  · exact (growth_rate_piecewise_continuous_monotone 0 8 5 50 60 "Joint"
      (by norm_num)).2.2.1 55 (by norm_num) (by norm_num)

/-! ## Claim C4: pro-rata distribution conserves cash up to flooring -/

/-- Total amount lost to the floor-at-0 rule in a distribution step: the
sum, over the accounts, of how far below 0 each pro-rata-adjusted balance
would have gone.  It is 0 when `net_cashflow = 0` because the engine skips
the distribution entirely then. -/
def flooredAmount (ab : List (String × AccountState)) (net_cashflow total : ℚ) : ℚ :=
  if net_cashflow = 0 then 0
  else ab.foldr
    (fun ka acc => max 0 (-(ka.2.balance + net_cashflow * (ka.2.balance / total))) + acc) 0

/-- Sum identity for the pro-rata map against an arbitrary positive
divisor `T`. -/
theorem sum_distribute_eq (cf T : ℚ) (l : List (String × AccountState)) :
    sumBalances (l.map (fun ka =>
        let account_proportion := ka.2.balance / T
        let account_contribution := cf * account_proportion
        let balance' := ka.2.balance + account_contribution
        (ka.1, { ka.2 with balance := if balance' < 0 then 0 else balance' }))) =
      sumBalances l + cf * (sumBalances l / T) +
        l.foldr (fun ka acc => max 0 (-(ka.2.balance + cf * (ka.2.balance / T))) + acc) 0 := by
  induction l with
  | nil => simp [sumBalances]
  | cons hd tl ih =>
      simp only [List.map_cons, sumBalances, List.foldr_cons] at ih ⊢
      have hsplit : (if hd.2.balance + cf * (hd.2.balance / T) < 0 then (0 : ℚ)
          else hd.2.balance + cf * (hd.2.balance / T)) =
          hd.2.balance + cf * (hd.2.balance / T) +
            max 0 (-(hd.2.balance + cf * (hd.2.balance / T))) := by
        rcases lt_or_le (hd.2.balance + cf * (hd.2.balance / T)) 0 with hlt | hge
        · rw [if_pos hlt, max_eq_right (by linarith)]
          ring
        · rw [if_neg (not_lt.mpr hge), max_eq_left (by linarith)]
          ring
      rw [hsplit]
      have hdist : cf * ((hd.2.balance +
          tl.foldr (fun ka acc => ka.2.balance + acc) 0) / T) =
          cf * (hd.2.balance / T) +
            cf * ((tl.foldr (fun ka acc => ka.2.balance + acc) 0) / T) := by
        rw [add_div, mul_add]
      rw [hdist] at *
      linarith [ih]

/-- Nonnegativity of the floored amount. -/
theorem flooredAmount_nonneg (ab : List (String × AccountState)) (cf T : ℚ) :
    0 ≤ flooredAmount ab cf T := by
  unfold flooredAmount
  split
  · exact le_rfl
  · induction ab with
    | nil => simp
    | cons hd tl ih =>
        simp only [List.foldr_cons]
        have := le_max_left (0 : ℚ) (-(hd.2.balance + cf * (hd.2.balance / T)))
        linarith

/-- Each floor term vanishes when no adjusted balance is negative. -/
theorem foldr_floor_zero (cf T : ℚ) (l : List (String × AccountState))
    (hall : ∀ ka ∈ l, 0 ≤ ka.2.balance + cf * (ka.2.balance / T)) :
    l.foldr (fun ka acc => max 0 (-(ka.2.balance + cf * (ka.2.balance / T))) + acc) 0 = 0 := by
  induction l with
  | nil => simp
  | cons hd tl ih =>
      simp only [List.foldr_cons]
      rw [max_eq_left (by
        have := hall hd (List.mem_cons_self hd tl)
        linarith)]
      rw [ih (fun ka hka => hall ka (List.mem_cons_of_mem hd hka))]
      ring

/-- C4: in any year step whose summed post-growth balance is positive, the
distribution block conserves cash exactly up to flooring: the sum of
balances afterwards equals (sum before) + net_cashflow + the floored
amount, the floored amount is nonnegative, and it vanishes when no
account's adjusted balance would go negative. -/
theorem cashflow_distribution_conserves (ab : List (String × AccountState))
    (cf : ℚ) (htot : 0 < sumBalances ab) :
    sumBalances (applyCashflow ab cf (sumBalances ab)) =
      sumBalances ab + cf + flooredAmount ab cf (sumBalances ab) ∧
    0 ≤ flooredAmount ab cf (sumBalances ab) ∧
    ((∀ ka ∈ ab, 0 ≤ ka.2.balance + cf * (ka.2.balance / sumBalances ab)) →
      flooredAmount ab cf (sumBalances ab) = 0) := by
  refine ⟨?_, flooredAmount_nonneg ab cf (sumBalances ab), ?_⟩
  · unfold applyCashflow flooredAmount
    by_cases hcf : cf = 0
    · simp [hcf]
    · rw [if_pos hcf, if_neg hcf, if_pos htot, sum_distribute_eq cf (sumBalances ab) ab]
      have hS : sumBalances ab / sumBalances ab = 1 := div_self (ne_of_gt htot)
      rw [hS, mul_one]
  · intro hall
    unfold flooredAmount
    by_cases hcf : cf = 0
    · rw [if_pos hcf]
    · rw [if_neg hcf]
      exact foldr_floor_zero cf (sumBalances ab) ab hall

/-- Two post-growth accounts used to witness the distribution identity. -/
def exAB : List (String × AccountState) :=
  [("Taxable_A", accountWith 100 5 5 50 65 "A"), ("401k_B", accountWith 300 5 5 50 65 "B")]

/-- C4 witness: withdrawing 800 from accounts holding 100 + 300 floors
both balances at 0 and the conservation identity holds with the floored
amount accounting for the difference. -/
theorem cashflow_distribution_conserves_witness :
    0 < sumBalances exAB ∧
    sumBalances (applyCashflow exAB (-800) (sumBalances exAB)) =
      sumBalances exAB + (-800) + flooredAmount exAB (-800) (sumBalances exAB) := by
  refine ⟨by norm_num [sumBalances, exAB, accountWith], ?_⟩
  exact (cashflow_distribution_conserves exAB (-800)
    (by norm_num [sumBalances, exAB, accountWith])).1

/-! ## Claim C5: the emitted net_cashflow column -/

/-- Field identities of the record emitted by one deterministic year step:
the `net_cashflow` column is written as `net_cashflow -
real_estate_cash_from_sales`, so it equals income − expenses, while
`portfolio_contribution` carries the full income − expenses + sale cash. -/
theorem projectYear_fields {s : Scenario} {ab : List (String × AccountState)}
    {re : ℚ} {c : ProjectionCache} {age year : Int}
    {row : YearRecord} {ab' : List (String × AccountState)} {re' : ℚ} {c' : ProjectionCache}
    (h : projectYear s ab re c age year = some (row, ab', re', c')) :
    row.net_cashflow = row.income - row.expenses ∧
    row.portfolio_contribution = row.income - row.expenses + row.real_estate_sales := by
  unfold projectYear at h
  cases h1 : calculate_total_income s age year c with
  | none => rw [h1] at h; simp at h
  | some ic =>
    obtain ⟨income, c1⟩ := ic
    rw [h1] at h
    simp only [Option.bind_eq_bind, Option.some_bind] at h
    cases h2 : calculate_total_expenses s age year c1 with
    | none => rw [h2] at h; simp at h
    | some ec =>
      obtain ⟨expenses, c2⟩ := ec
      rw [h2] at h
      simp only [Option.some_bind] at h
      by_cases hre : s.real_estate ≠ []
      · rw [if_pos hre] at h
        rcases hgi : c2.get_real_estate_impact s.real_estate s.current_year age year with ⟨imp, c3⟩
        rw [hgi] at h
        simp only [Option.some.injEq, Prod.mk.injEq] at h
        obtain ⟨hrow, -⟩ := h
        subst hrow
        constructor <;> simp
      · rw [if_neg hre] at h
        simp only [Option.some.injEq, Prod.mk.injEq] at h
        obtain ⟨hrow, -⟩ := h
        subst hrow
        constructor <;> simp

/-- The per-record identities hold for every record the year loop emits. -/
theorem projectLoop_fields (s : Scenario) :
    ∀ (n : Nat) (age year : Int) (ab : List (String × AccountState)) (re : ℚ)
      (c : ProjectionCache) (recs : List YearRecord),
      projectLoop s n age year ab re c = some recs →
      ∀ r ∈ recs, r.net_cashflow = r.income - r.expenses ∧
        r.portfolio_contribution = r.income - r.expenses + r.real_estate_sales := by
  intro n
  induction n with
  | zero =>
      intro age year ab re c recs h r hr
      simp only [projectLoop, Option.some.injEq] at h
      subst h
      simp at hr
  | succ n ih =>
      intro age year ab re c recs h r hr
      unfold projectLoop at h
      cases hy : projectYear s ab re c age year with
      | none => rw [hy] at h; simp at h
      | some t =>
          obtain ⟨row, ab2, re2, c2⟩ := t
          rw [hy] at h
          simp only [Option.bind_eq_bind, Option.some_bind] at h
          cases hrest : projectLoop s n (age + 1) (year + 1) ab2 re2 c2 with
          | none => rw [hrest] at h; simp at h
          | some rest =>
              rw [hrest] at h
              simp only [Option.some_bind, Option.some.injEq] at h
              subst h
              rcases List.mem_cons.mp hr with hhd | htl
              · subst hhd
                exact projectYear_fields hy
              · exact ih (age + 1) (year + 1) ab2 re2 c2 rest hrest r htl

/-- C5 amended: in every emitted `YearRecord` of `project_scenario`, the
`net_cashflow` field equals income − expenses (real-estate sale cash is
excluded from this column and reported in `real_estate_sales`), and the
`portfolio_contribution` field equals income − expenses + real-estate
sale cash. -/
theorem emitted_net_cashflow_identity (s : Scenario) (recs : List YearRecord)
    (r : YearRecord) (hs : project_scenario s = some recs) (hr : r ∈ recs) :
    r.net_cashflow = r.income - r.expenses ∧
    r.portfolio_contribution = r.income - r.expenses + r.real_estate_sales := by
  exact projectLoop_fields s _ _ _ _ _ _ recs hs r hr

/-- A future-variant property sold in 2025 for cash (no mortgage, no
appreciation), embedded as the raw dictionary the engine receives. -/
def exP5 : PropertyData :=
  ⟨some "House", none, some 0, some 30, some 0, some 2025, some 2020,
    some 100000, some 100, false, none, none⟩

/-- One-year scenario whose only cashflow is the 94000 sale proceeds of
`exP5` (100000 equity less 6% closing costs). -/
def exS5 : Scenario :=
  { current_age := 70, max_projection_age := 70, current_year := 2025,
    people := [], income_sources := [], retirement_income := [],
    recurring_expenses := [], planned_expenses := [],
    real_estate := [exP5], accounts := none, account_details := [] }

/-- C5 counterexample: in the sale year the emitted `net_cashflow` is 0
while income − expenses + real-estate sale cash is 94000 — the claim's
equation fails whenever sale proceeds are nonzero. -/
theorem emitted_net_cashflow_excludes_sales :
    (((project_scenario exS5).getD []).headD default).net_cashflow = 0 ∧
    (((project_scenario exS5).getD []).headD default).income -
        (((project_scenario exS5).getD []).headD default).expenses +
        (((project_scenario exS5).getD []).headD default).real_estate_sales = 94000 := by
  constructor <;>
    norm_num [project_scenario, projectLoop, projectYear, calculate_total_income,
      calculate_total_expenses, ProjectionCache.get_real_estate_impact,
      calculate_real_estate_impact_v2, impactStep, create_property, exS5, exP5,
      PropertyObj.is_sold_before_year, PropertyObj.is_sold_in_year,
      PropertyObj.calculate_value_at_year, PropertyObj.calculate_mortgage_balance_at_year,
      PropertyObj.calculate_equity_at_year, PropertyObj.calculate_sale_proceeds,
      PropertyObj.get_down_payment_in_year, calculate_mortgage_balance,
      buildAccountBalances, growAccounts, applyCashflow, sumBalances, sumValues,
      dictInsert, List.lookup, Option.bind, bind]

/-- The single record `project_scenario` emits for `exS5`. -/
def exR5 : YearRecord := ⟨70, 2025, 0, 0, 0, 94000, 94000, 0, 0, 0, 0⟩

/-- C5 witness: the amended identity instantiated on the concrete one-year
sale scenario. -/
theorem emitted_net_cashflow_identity_witness :
    project_scenario exS5 = some [exR5] ∧
    exR5.net_cashflow = exR5.income - exR5.expenses ∧
    exR5.portfolio_contribution = exR5.income - exR5.expenses + exR5.real_estate_sales := by
  have hEval : project_scenario exS5 = some [exR5] := by
    norm_num [project_scenario, projectLoop, projectYear, calculate_total_income,
      calculate_total_expenses, ProjectionCache.get_real_estate_impact,
      calculate_real_estate_impact_v2, impactStep, create_property, exS5, exP5, exR5,
      PropertyObj.is_sold_before_year, PropertyObj.is_sold_in_year,
      PropertyObj.calculate_value_at_year, PropertyObj.calculate_mortgage_balance_at_year,
      PropertyObj.calculate_equity_at_year, PropertyObj.calculate_sale_proceeds,
      PropertyObj.get_down_payment_in_year, calculate_mortgage_balance,
      buildAccountBalances, growAccounts, applyCashflow, sumBalances, sumValues,
      dictInsert, List.lookup, Option.bind, bind]
  have hmem : exR5 ∈ [exR5] := by simp
  exact ⟨hEval, (emitted_net_cashflow_identity exS5 [exR5] exR5 hEval hmem).1,
    (emitted_net_cashflow_identity exS5 [exR5] exR5 hEval hmem).2⟩

/-! ## Claim C7: defensive skipping of malformed income/expense items -/

/-- A recurring-expense item with a missing required field or an inverted
age range contributes exactly 0. -/
theorem expenseItemAmount_malformed (people : List PersonData)
    (cy age year : Int) (e : ExpenseItem)
    (hmal : (e.person.isNone ∨ e.start_age.isNone ∨ e.end_age.isNone ∨
        e.annual_amount.isNone ∨ e.growth_rate.isNone) ∨
      e.start_age.getD 0 > e.end_age.getD 0) :
    expenseItemAmount people cy age year e = 0 := by
  unfold expenseItemAmount
  rcases hmal with hmiss | hinv
  · rw [if_pos hmiss]
  · by_cases hmiss : e.person.isNone ∨ e.start_age.isNone ∨ e.end_age.isNone ∨
        e.annual_amount.isNone ∨ e.growth_rate.isNone
    · rw [if_pos hmiss]
    · rw [if_neg hmiss, if_pos hinv]

/-- A well-formed income item with an inverted age range contributes
`some 0` (the window test is vacuous, nothing is accessed afterwards). -/
theorem incomeItemAmount_inverted (people : List PersonData)
    (cy age year : Int) (it : IncomeItem) (sa ea : Int)
    (hsa : it.start_age = some sa) (hea : it.end_age = some ea)
    (hinv : ea < sa) :
    incomeItemAmount people cy age year it = some 0 := by
  unfold incomeItemAmount
  simp only [hsa, hea]
  split_ifs with h1 h2
  · exact absurd (h1.trans h2) (not_le.mpr hinv)
  · rfl
  · rfl

/-- Folding the income items over `Option` ignores an item that
contributes `some 0`. -/
theorem income_fold_skips_zero_item (people : List PersonData)
    (cy age year : Int) (it : IncomeItem) (l1 l2 : List IncomeItem) (a : ℚ)
    (hz : incomeItemAmount people cy age year it = some 0) :
    (l1 ++ it :: l2).foldlM
        (fun acc x => (incomeItemAmount people cy age year x).map (acc + ·)) a =
      (l1 ++ l2).foldlM
        (fun acc x => (incomeItemAmount people cy age year x).map (acc + ·)) a := by
  induction l1 generalizing a with
  | nil =>
      simp only [List.nil_append, List.foldlM_cons, hz, Option.map_some',
        Option.some_bind, add_zero]
      simp only [Option.pure_def, Option.bind_eq_bind, Option.some_bind]
  | cons hd tl ih =>
      simp only [List.cons_append, List.foldlM_cons]
      cases hhd : incomeItemAmount people cy age year hd with
      | none => simp [hhd]
      | some v =>
          simp only [hhd, Option.map_some', Option.some_bind]
          exact ih (a + v)

/-- C7 amended: `calculate_total_expenses` skips a malformed recurring
expense item (missing required fields or inverted age range) and returns
the total over the remaining items, but `calculate_total_income` only
"skips" an item whose age range is inverted (it contributes 0); an income
item with a *missing required field* makes `calculate_total_income` raise
(modelled as `none`) instead of being skipped. -/
theorem malformed_items_handling (s : Scenario) (age year : Int)
    (cache : ProjectionCache) (e : ExpenseItem) (it : IncomeItem)
    (el1 el2 : List ExpenseItem) (il1 il2 : List IncomeItem) (sa ea : Int)
    (hmal : (e.person.isNone ∨ e.start_age.isNone ∨ e.end_age.isNone ∨
        e.annual_amount.isNone ∨ e.growth_rate.isNone) ∨
      e.start_age.getD 0 > e.end_age.getD 0)
    (hsa : it.start_age = some sa) (hea : it.end_age = some ea) (hinv : ea < sa) :
    calculate_total_expenses { s with recurring_expenses := el1 ++ e :: el2 } age year cache =
      calculate_total_expenses { s with recurring_expenses := el1 ++ el2 } age year cache ∧
    calculate_total_income { s with income_sources := il1 ++ it :: il2 } age year cache =
      calculate_total_income { s with income_sources := il1 ++ il2 } age year cache := by
  constructor
  · unfold calculate_total_expenses
    simp only [List.foldl_append, List.foldl_cons,
      expenseItemAmount_malformed s.people s.current_year age year e hmal, add_zero]
  · unfold calculate_total_income
    rw [income_fold_skips_zero_item s.people s.current_year age year it il1 il2 0
      (incomeItemAmount_inverted s.people s.current_year age year it sa ea hsa hea hinv)]

/-- An income item whose required `start_age` key is missing. -/
def badIncome : IncomeItem := ⟨some "Joint", none, some 65, some 50000, some 0⟩

/-- A well-formed income item worth 50000 per year from age 30 to 65. -/
def goodIncome : IncomeItem := ⟨some "Joint", some 30, some 65, some 50000, some 0⟩

/-- A one-year scenario holding one malformed and one well-formed income
item. -/
def exS7 : Scenario :=
  { current_age := 40, max_projection_age := 40, current_year := 2025,
    people := [], income_sources := [badIncome, goodIncome], retirement_income := [],
    recurring_expenses := [], planned_expenses := [], real_estate := [],
    accounts := none, account_details := [] }

/-- C7 counterexample: with a malformed income item present,
`calculate_total_income` raises (returns `none`) instead of skipping the
item and returning the 50000 that the remaining well-formed item is
worth. -/
theorem income_missing_field_raises :
    calculate_total_income exS7 40 2025 ⟨[], []⟩ = none ∧
    calculate_total_income { exS7 with income_sources := [goodIncome] } 40 2025 ⟨[], []⟩ =
      some (50000, ⟨[], []⟩) := by
  constructor <;>
    norm_num [calculate_total_income, incomeItemAmount, itemAgeFor, exS7,
      badIncome, goodIncome, List.foldlM, Option.bind]

/-- An expense item whose required `person` key is missing. -/
def badExpense : ExpenseItem := ⟨some "stuff", none, some 30, some 60, some 1000, some 2⟩

/-- A well-formed income item with an inverted age range (60 > 50). -/
def invIncome : IncomeItem := ⟨some "Joint", some 60, some 50, some 1000, some 0⟩

/-- C7 witness: the amended handling instantiated concretely — the
malformed expense item is skipped by `calculate_total_expenses` and the
inverted-range income item contributes nothing to
`calculate_total_income`. -/
theorem malformed_items_handling_witness :
    calculate_total_expenses { exS7 with recurring_expenses := [badExpense] } 40 2025 ⟨[], []⟩ =
      calculate_total_expenses { exS7 with recurring_expenses := [] } 40 2025 ⟨[], []⟩ ∧
    calculate_total_income { exS7 with income_sources := [invIncome] } 40 2025 ⟨[], []⟩ =
      calculate_total_income { exS7 with income_sources := [] } 40 2025 ⟨[], []⟩ := by
  exact malformed_items_handling exS7 40 2025 ⟨[], []⟩ badExpense invIncome
    [] [] [] [] 60 50 (Or.inl (Or.inl (by decide))) rfl rfl (by norm_num)

/-! ## Claim C9: balances never negative after a year closes -/

/-- The per-account hypothesis of the invariant: nonnegative balance and
both rates (defaults applied) at or above −100%. -/
def AccountOK (ka : String × AccountState) : Prop :=
  0 ≤ ka.2.balance ∧ -100 ≤ ka.2.aggressive_rate.getD 6 ∧
    -100 ≤ ka.2.conservative_rate.getD 6

/-- With both rates at or above −100%, the age-interpolated growth rate
never drops below −1 (the interpolated value is a convex combination of
the two rates). -/
theorem growth_rate_ge_neg_one (a : AccountState) (oa : ℚ)
    (hagg : -100 ≤ a.aggressive_rate.getD 6)
    (hcon : -100 ≤ a.conservative_rate.getD 6) :
    -1 ≤ calculate_account_growth_rate a oa := by
  unfold calculate_account_growth_rate
  dsimp only
  split_ifs with h1 h2
  · linarith
  · linarith
  · push_neg at h1 h2
    have hpos : 0 < a.transition_end_age.getD 65 - a.transition_start_age.getD 50 := by
      linarith
    set t := (oa - a.transition_start_age.getD 50) /
      (a.transition_end_age.getD 65 - a.transition_start_age.getD 50) with hdef
    have ht0 : 0 ≤ t := div_nonneg (by linarith) (le_of_lt hpos)
    have ht1 : t ≤ 1 := by
      rw [hdef, div_le_one hpos]
      linarith
    have k1 : 0 ≤ (a.aggressive_rate.getD 6 + 100) * (1 - t) :=
      mul_nonneg (by linarith) (by linarith)
    have k2 : 0 ≤ (a.conservative_rate.getD 6 + 100) * t :=
      mul_nonneg (by linarith) ht0
    nlinarith [k1, k2]

/-- The growth loop keeps every account's balance nonnegative and leaves
its rate fields untouched. -/
theorem growAccounts_preserves (people : List PersonData) (cy age year : Int) :
    ∀ (ab : List (String × AccountState)), (∀ ka ∈ ab, AccountOK ka) →
      ∀ ka ∈ (growAccounts people cy age year ab).1, AccountOK ka := by
  intro ab
  induction ab with
  | nil => intro _ ka hka; simp [growAccounts] at hka
  | cons hd tl ih =>
      intro h ka hka
      obtain ⟨k, a⟩ := hd
      simp only [growAccounts] at hka
      rcases hg : growAccounts people cy age year tl with ⟨rest', tr, tb⟩
      rw [hg] at hka
      simp only [List.mem_cons] at hka
      rcases hka with hhd | htl
      · subst hhd
        obtain ⟨hb, hr1, hr2⟩ := h (k, a) (List.mem_cons_self _ _)
        refine ⟨?_, hr1, hr2⟩
        have hrate := growth_rate_ge_neg_one a
          ((ownerAgeFor people cy age year a.account_owner : Int) : ℚ) hr1 hr2
        have : a.balance + a.balance *
            calculate_account_growth_rate a
              ((ownerAgeFor people cy age year a.account_owner : Int) : ℚ) =
            a.balance * (1 + calculate_account_growth_rate a
              ((ownerAgeFor people cy age year a.account_owner : Int) : ℚ)) := by ring
        simp only [this]
        exact mul_nonneg hb (by linarith)
      · have := ih (fun x hx => h x (List.mem_cons_of_mem _ hx)) ka
        rw [hg] at this
        exact this htl

/-- The distribution block keeps every account's balance nonnegative
(flooring guarantees it on the pro-rata branch) and leaves the rate
fields untouched. -/
theorem applyCashflow_preserves (ab : List (String × AccountState)) (cf total : ℚ)
    (h : ∀ ka ∈ ab, AccountOK ka) :
    ∀ ka ∈ applyCashflow ab cf total, AccountOK ka := by
  intro ka hka
  unfold applyCashflow at hka
  split_ifs at hka with h1 h2 h3
  · obtain ⟨src, hsrc, heq⟩ := List.mem_map.mp hka
    obtain ⟨hb, hr1, hr2⟩ := h src hsrc
    subst heq
    refine ⟨?_, hr1, hr2⟩
    dsimp only
    split
    · exact le_rfl
    · linarith [not_lt.mp (by assumption :
        ¬ src.2.balance + cf * (src.2.balance / total) < 0)]
  · cases ab with
    | nil => simp at hka
    | cons hd tl =>
        obtain ⟨k, a⟩ := hd
        simp only [List.mem_cons] at hka
        rcases hka with hhd | htl
        · subst hhd
          obtain ⟨-, hr1, hr2⟩ := h (k, a) (List.mem_cons_self _ _)
          exact ⟨le_max_left _ _, hr1, hr2⟩
        · exact h _ (List.mem_cons_of_mem _ htl)
  · exact h ka hka
  · exact h ka hka

/-- A dict of nonnegative balances sums to a nonnegative total. -/
theorem sumBalances_nonneg (ab : List (String × AccountState))
    (h : ∀ ka ∈ ab, AccountOK ka) : 0 ≤ sumBalances ab := by
  induction ab with
  | nil => simp [sumBalances]
  | cons hd tl ih =>
      simp only [sumBalances, List.foldr_cons]
      have h1 := (h hd (List.mem_cons_self _ _)).1
      have h2 := ih (fun x hx => h x (List.mem_cons_of_mem _ hx))
      simp only [sumBalances] at h2
      linarith

/-- One deterministic year step keeps every account balance nonnegative
and emits a nonnegative `portfolio_balance`. -/
theorem projectYear_preserves {s : Scenario} {ab : List (String × AccountState)}
    {re : ℚ} {c : ProjectionCache} {age year : Int}
    {row : YearRecord} {ab' : List (String × AccountState)} {re' : ℚ} {c' : ProjectionCache}
    (h : projectYear s ab re c age year = some (row, ab', re', c'))
    (hab : ∀ ka ∈ ab, AccountOK ka) :
    (∀ ka ∈ ab', AccountOK ka) ∧ 0 ≤ row.portfolio_balance := by
  unfold projectYear at h
  cases h1 : calculate_total_income s age year c with
  | none => rw [h1] at h; simp at h
  | some ic =>
    obtain ⟨income, c1⟩ := ic
    rw [h1] at h
    simp only [Option.bind_eq_bind, Option.some_bind] at h
    cases h2 : calculate_total_expenses s age year c1 with
    | none => rw [h2] at h; simp at h
    | some ec =>
      obtain ⟨expenses, c2⟩ := ec
      rw [h2] at h
      simp only [Option.some_bind] at h
      have main : ∀ (sales re2 : ℚ) (c3 : ProjectionCache),
          some (⟨age, year, income, expenses,
              income - expenses + sales - sales, sales, income - expenses + sales,
              (growAccounts s.people s.current_year age year ab).2.1,
              sumBalances (applyCashflow (growAccounts s.people s.current_year age year ab).1
                (income - expenses + sales)
                (growAccounts s.people s.current_year age year ab).2.2),
              re2,
              sumBalances (applyCashflow (growAccounts s.people s.current_year age year ab).1
                (income - expenses + sales)
                (growAccounts s.people s.current_year age year ab).2.2) + re2⟩,
            applyCashflow (growAccounts s.people s.current_year age year ab).1
              (income - expenses + sales)
              (growAccounts s.people s.current_year age year ab).2.2,
            re2, c3) = some (row, ab', re', c') →
          (∀ ka ∈ ab', AccountOK ka) ∧ 0 ≤ row.portfolio_balance := by
        intro sales re2 c3 hm
        simp only [Option.some.injEq, Prod.mk.injEq] at hm
        obtain ⟨hrow, hab', -, -⟩ := hm
        have hok2 := growAccounts_preserves s.people s.current_year age year ab hab
        have hok3 := applyCashflow_preserves
          (growAccounts s.people s.current_year age year ab).1
          (income - expenses + sales)
          (growAccounts s.people s.current_year age year ab).2.2 hok2
        subst hab'
        refine ⟨hok3, ?_⟩
        rw [← hrow]
        exact sumBalances_nonneg _ hok3
      by_cases hre : s.real_estate ≠ []
      · rw [if_pos hre] at h
        rcases hgi : c2.get_real_estate_impact s.real_estate s.current_year age year
          with ⟨imp, c3⟩
        rw [hgi] at h
        rcases hg : growAccounts s.people s.current_year age year ab with ⟨ab2, tr, tb⟩
        rw [hg] at h
        refine main imp.sale_proceeds (sumValues imp.equity_values) c3 ?_
        rw [hg]
        exact h
      · rw [if_neg hre] at h
        rcases hg : growAccounts s.people s.current_year age year ab with ⟨ab2, tr, tb⟩
        rw [hg] at h
        refine main 0 re c2 ?_
        rw [hg]
        exact h

/-- The year loop keeps every emitted `portfolio_balance` nonnegative. -/
theorem projectLoop_balances_nonneg (s : Scenario) :
    ∀ (n : Nat) (age year : Int) (ab : List (String × AccountState)) (re : ℚ)
      (c : ProjectionCache) (recs : List YearRecord),
      projectLoop s n age year ab re c = some recs →
      (∀ ka ∈ ab, AccountOK ka) →
      ∀ r ∈ recs, 0 ≤ r.portfolio_balance := by
  intro n
  induction n with
  | zero =>
      intro age year ab re c recs h _ r hr
      simp only [projectLoop, Option.some.injEq] at h
      subst h
      simp at hr
  | succ n ih =>
      intro age year ab re c recs h hab r hr
      unfold projectLoop at h
      cases hy : projectYear s ab re c age year with
      | none => rw [hy] at h; simp at h
      | some t =>
          obtain ⟨row, ab2, re2, c2⟩ := t
          rw [hy] at h
          simp only [Option.bind_eq_bind, Option.some_bind] at h
          cases hrest : projectLoop s n (age + 1) (year + 1) ab2 re2 c2 with
          | none => rw [hrest] at h; simp at h
          | some rest =>
              rw [hrest] at h
              simp only [Option.some_bind, Option.some.injEq] at h
              subst h
              obtain ⟨hok, hbal⟩ := projectYear_preserves hy hab
              rcases List.mem_cons.mp hr with hhd | htl
              · subst hhd; exact hbal
              · exact ih (age + 1) (year + 1) ab2 re2 c2 rest hrest hok r htl

/-- C9: when every account the engine builds starts with a nonnegative
balance and rates at or above −100% (defaults included), every
`portfolio_balance` emitted by `project_scenario` is nonnegative. -/
theorem project_scenario_balances_nonneg (s : Scenario)
    (hacc : ∀ ka ∈ buildAccountBalances s, AccountOK ka)
    (recs : List YearRecord) (hs : project_scenario s = some recs) :
    ∀ r ∈ recs, 0 ≤ r.portfolio_balance := by
  exact projectLoop_balances_nonneg s _ _ _ _ _ _ recs hs hacc

/-- One-year scenario with a single 1000-balance account at fixed 5%. -/
def exS9 : Scenario :=
  { current_age := 35, max_projection_age := 35, current_year := 2025,
    people := [], income_sources := [], retirement_income := [],
    recurring_expenses := [], planned_expenses := [], real_estate := [],
    accounts := none,
    account_details := [⟨"Taxable", "Joint", 1000, some 5, some 5, some 50, some 65⟩] }

/-- The single record `project_scenario` emits for `exS9`. -/
def exR9 : YearRecord := ⟨35, 2025, 0, 0, 0, 0, 0, 50, 1050, 0, 1050⟩

/-- C9 witness: the nonnegativity invariant instantiated on the concrete
one-account scenario. -/
theorem project_scenario_balances_nonneg_witness :
    project_scenario exS9 = some [exR9] ∧ 0 ≤ exR9.portfolio_balance := by
  have hEval : project_scenario exS9 = some [exR9] := by
    norm_num [project_scenario, projectLoop, projectYear, calculate_total_income,
      calculate_total_expenses, exS9, exR9, buildAccountBalances, growAccounts,
      applyCashflow, sumBalances, sumValues, dictInsert, calculate_account_growth_rate,
      ownerAgeFor, Option.bind, bind]
  refine ⟨hEval, ?_⟩
  exact project_scenario_balances_nonneg exS9
    (by
      intro ka hka
      simp only [buildAccountBalances, exS9, List.foldl_cons, List.foldl_nil,
        dictInsert] at hka
      simp only [List.mem_singleton] at hka
      subst hka
      refine ⟨by norm_num, by norm_num, by norm_num⟩)
    [exR9] hEval exR9 (by simp)

/-! ## Claim C1: Monte Carlo with zero volatility vs the deterministic engine -/

/-- With all volatilities 0, the correlated transform returns each
expected value unchanged. -/
theorem applyCorrelated_zero (draw : Nat → ℚ) :
    ∀ (i : Nat) (rs : List ℚ),
      MonteCarloEngine.applyCorrelated draw i rs (rs.map (fun _ => (0 : ℚ))) = rs := by
  intro i rs
  induction rs generalizing i with
  | nil => simp [MonteCarloEngine.applyCorrelated]
  | cons hd tl ih =>
      simp only [List.map_cons, MonteCarloEngine.applyCorrelated, zero_mul, add_zero,
        List.cons.injEq, true_and]
      exact ih (i + 1)

/-- With all volatilities 0, `generate_correlated_returns` returns the
expected means on both the single-account and the multi-account path. -/
theorem generate_correlated_returns_zero (draw : Nat → ℚ) (rs : List ℚ) :
    MonteCarloEngine.generate_correlated_returns draw rs (rs.map (fun _ => (0 : ℚ))) = rs := by
  unfold MonteCarloEngine.generate_correlated_returns
  split_ifs with h
  · obtain ⟨a, rfl⟩ := List.length_eq_one.mp h
    simp
  · exact applyCorrelated_zero draw 0 rs

/-- Applying the deterministic rates positionally reproduces the
deterministic growth loop exactly. -/
theorem mcApplyReturns_det (people : List PersonData) (cy age year : Int) :
    ∀ ab : List (String × AccountState),
      MonteCarloEngine.mcApplyReturns ab
          (MonteCarloEngine.deterministicRates people cy age year ab) =
        growAccounts people cy age year ab := by
  intro ab
  induction ab with
  | nil => rfl
  | cons hd tl ih =>
      obtain ⟨k, a⟩ := hd
      simp only [MonteCarloEngine.deterministicRates, List.map_cons] at ih ⊢
      simp only [MonteCarloEngine.mcApplyReturns, List.headD_cons, List.tail_cons,
        growAccounts]
      rw [ih]

/-- With zero volatility the whole Monte Carlo growth section (two-pass
rates/volatilities plus correlated draws) equals the deterministic growth
loop. -/
theorem mcGrow_zero (draw : Nat → ℚ) (people : List PersonData) (cy age year : Int)
    (ab : List (String × AccountState)) :
    (if ab.isEmpty then (ab, (0 : ℚ), (0 : ℚ))
     else
       MonteCarloEngine.mcApplyReturns ab
         (MonteCarloEngine.generate_correlated_returns draw
           (MonteCarloEngine.deterministicRates people cy age year ab)
           ((MonteCarloEngine.deterministicRates people cy age year ab).map
             (MonteCarloEngine.get_account_volatility (fun _ => 0))))) =
      growAccounts people cy age year ab := by
  cases ab with
  | nil => rfl
  | cons hd tl =>
      rw [if_neg (by simp)]
      rw [show (MonteCarloEngine.deterministicRates people cy age year (hd :: tl)).map
            (MonteCarloEngine.get_account_volatility (fun _ => 0)) =
          (MonteCarloEngine.deterministicRates people cy age year (hd :: tl)).map
            (fun _ => (0 : ℚ)) from rfl]
      rw [generate_correlated_returns_zero, mcApplyReturns_det]

/-- One Monte Carlo year step with every volatility forced to 0 agrees
with the deterministic year step after dropping the `simulation_id`
column. -/
theorem mcProjectYear_zero_vol (draw : Nat → ℚ) (sid : Nat) (s : Scenario)
    (ab : List (String × AccountState)) (re : ℚ) (c : ProjectionCache) (age year : Int) :
    (MonteCarloEngine.mcProjectYear (fun _ => 0) draw sid s ab re c age year).map
        (fun t => (t.1.toYearRecord, t.2)) =
      projectYear s ab re c age year := by
  unfold MonteCarloEngine.mcProjectYear projectYear
  cases h1 : calculate_total_income s age year c with
  | none => rfl
  | some ic =>
    obtain ⟨income, c1⟩ := ic
    simp only [Option.bind_eq_bind, Option.some_bind]
    cases h2 : calculate_total_expenses s age year c1 with
    | none => rfl
    | some ec =>
      obtain ⟨expenses, c2⟩ := ec
      simp only [Option.some_bind]
      rw [mcGrow_zero draw s.people s.current_year age year ab]
      simp only [Option.map_some']
      rfl

/-- When accounts come from `account_details`, both engines build the same
account dict. -/
theorem mcBuild_eq_build (s : Scenario) (h : s.accounts = none) :
    MonteCarloEngine.mcBuildAccountBalances s = buildAccountBalances s := by
  unfold MonteCarloEngine.mcBuildAccountBalances buildAccountBalances
  rw [h]

/-- With zero volatility the Monte Carlo year loop reproduces the
deterministic loop from any shared state. -/
theorem mcLoop_zero_vol (draws : Nat → Nat → ℚ) (sid : Nat) (s : Scenario) :
    ∀ (n idx : Nat) (age year : Int) (ab : List (String × AccountState)) (re : ℚ)
      (c : ProjectionCache),
      (MonteCarloEngine.mcLoop (fun _ => 0) draws sid s n idx age year ab re c).map
          (List.map MonteCarloEngine.YearRecordMC.toYearRecord) =
        projectLoop s n age year ab re c := by
  intro n
  induction n with
  | zero => intro idx age year ab re c; rfl
  | succ n ih =>
      intro idx age year ab re c
      unfold MonteCarloEngine.mcLoop projectLoop
      have hstep := mcProjectYear_zero_vol (draws idx) sid s ab re c age year
      cases hy : projectYear s ab re c age year with
      | none =>
          rw [hy] at hstep
          have hmc : MonteCarloEngine.mcProjectYear (fun _ => 0) (draws idx) sid
              s ab re c age year = none := by
            cases hmc' : MonteCarloEngine.mcProjectYear (fun _ => 0) (draws idx) sid
                s ab re c age year with
            | none => rfl
            | some t => rw [hmc'] at hstep; simp at hstep
          rw [hmc]
          rfl
      | some t =>
          obtain ⟨row, ab2, re2, c2⟩ := t
          rw [hy] at hstep
          cases hmc : MonteCarloEngine.mcProjectYear (fun _ => 0) (draws idx) sid
              s ab re c age year with
          | none => rw [hmc] at hstep; simp at hstep
          | some u =>
              obtain ⟨mcrow, mab, mre, mc⟩ := u
              rw [hmc] at hstep
              simp only [Option.map_some', Option.some.injEq, Prod.mk.injEq] at hstep
              obtain ⟨hrow, hab2, hre2, hc2⟩ := hstep
              subst hab2; subst hre2; subst hc2
              simp only [Option.bind_eq_bind, Option.some_bind]
              have hthis := ih (idx + 1) (age + 1) (year + 1) mab mre mc
              cases hrest : projectLoop s n (age + 1) (year + 1) mab mre mc with
              | none =>
                  rw [hrest] at hthis
                  cases hmc' : MonteCarloEngine.mcLoop (fun _ => 0) draws sid s n
                      (idx + 1) (age + 1) (year + 1) mab mre mc with
                  | none => rfl
                  | some l => rw [hmc'] at hthis; simp at hthis
              | some rest =>
                  rw [hrest] at hthis
                  cases hmc' : MonteCarloEngine.mcLoop (fun _ => 0) draws sid s n
                      (idx + 1) (age + 1) (year + 1) mab mre mc with
                  | none => rw [hmc'] at hthis; simp at hthis
                  | some mcrest =>
                      rw [hmc'] at hthis
                      simp only [Option.map_some', Option.some.injEq] at hthis
                      simp only [Option.some_bind, Option.map_some', Option.some.injEq,
                        List.map_cons, List.cons.injEq]
                      exact ⟨hrow, hthis⟩

/-- C1 amended: for every scenario that supplies its accounts through
`account_details` (no legacy `accounts` dict), a single Monte Carlo trial
with every account's volatility forced to 0 emits exactly the
deterministic engine's YearRecord sequence, for any random stream and any
trial id. -/
theorem mc_single_trial_zero_vol_matches (s : Scenario) (draws : Nat → Nat → ℚ)
    (sid : Nat) (h : s.accounts = none) :
    (MonteCarloEngine.run_single_simulation (fun _ => 0) draws s sid).map
        (List.map MonteCarloEngine.YearRecordMC.toYearRecord) = project_scenario s := by
  unfold MonteCarloEngine.run_single_simulation project_scenario
  rw [mcBuild_eq_build s h]
  exact mcLoop_zero_vol draws sid s _ 0 s.current_age s.current_year
    (buildAccountBalances s) 0 ⟨[], []⟩

/-- One-year scenario using the legacy `accounts` dict form with a single
1000-balance account, primary age 70 (past the default transition end). -/
def exS1 : Scenario :=
  { current_age := 70, max_projection_age := 70, current_year := 2025,
    people := [], income_sources := [], retirement_income := [],
    recurring_expenses := [], planned_expenses := [], real_estate := [],
    accounts := some [("Savings", 1000)], account_details := [] }

/-- C1 counterexample: on a legacy-dict scenario the zero-volatility Monte
Carlo trial does *not* reproduce the deterministic run: the Monte Carlo
account setup omits `conservative_rate` (and the transition ages), so past
the transition window it grows the account at the 6% default
(return 60) while the deterministic engine uses 0.05/100 (return 0.5). -/
theorem mc_zero_vol_differs_on_legacy_accounts :
    (MonteCarloEngine.run_single_simulation (fun _ => 0) (fun _ _ => 0) exS1 0).map
        (List.map MonteCarloEngine.YearRecordMC.toYearRecord) ≠ project_scenario exS1 := by
  have hdet : project_scenario exS1 =
      some [⟨70, 2025, 0, 0, 0, 0, 0, 1/2, 2001/2, 0, 2001/2⟩] := by
    norm_num [project_scenario, projectLoop, projectYear, calculate_total_income,
      calculate_total_expenses, exS1, buildAccountBalances, growAccounts,
      applyCashflow, sumBalances, dictInsert, calculate_account_growth_rate,
      ownerAgeFor, Option.bind, bind]
  have hmc : (MonteCarloEngine.run_single_simulation (fun _ => 0) (fun _ _ => 0) exS1 0).map
      (List.map MonteCarloEngine.YearRecordMC.toYearRecord) =
      some [⟨70, 2025, 0, 0, 0, 0, 0, 60, 1060, 0, 1060⟩] := by
    norm_num [MonteCarloEngine.run_single_simulation, MonteCarloEngine.mcLoop,
      MonteCarloEngine.mcProjectYear, MonteCarloEngine.mcBuildAccountBalances,
      MonteCarloEngine.generate_correlated_returns, MonteCarloEngine.deterministicRates,
      MonteCarloEngine.get_account_volatility, MonteCarloEngine.mcApplyReturns,
      MonteCarloEngine.YearRecordMC.toYearRecord, calculate_total_income,
      calculate_total_expenses, exS1, calculate_account_growth_rate, ownerAgeFor,
      applyCashflow, sumBalances, dictInsert, Option.bind, bind]
  intro hEq
  rw [hmc, hdet] at hEq
  simp only [Option.some.injEq, List.cons.injEq, YearRecord.mk.injEq] at hEq
  norm_num at hEq

/-- C1 witness: the zero-volatility equivalence instantiated on the
concrete `account_details` scenario. -/
theorem mc_single_trial_zero_vol_matches_witness :
    exS9.accounts = none ∧
    (MonteCarloEngine.run_single_simulation (fun _ => 0) (fun _ _ => 0) exS9 0).map
        (List.map MonteCarloEngine.YearRecordMC.toYearRecord) = project_scenario exS9 :=
  ⟨rfl, mc_single_trial_zero_vol_matches exS9 (fun _ _ => 0) 0 rfl⟩
